import Mathlib

/-!
Entity registry, location updates and tab list (src/Entity.h)

A shallow embedding of the data model declared in `Entity.h`: the registry
constants, the `LU_*` flag masks of a `LocationUpdate`, the `_TabListData`
table with its `TabList_UNSAFE_Get*` accessors and the `TabList_EntityLinked_*`
bitset macros.

Machine integers are natural numbers with explicit reduction modulo `2^w`
where a value is stored into a `w`-bit field. C arrays are lists whose length
is stated as a hypothesis where it matters.

The header only declares `TabList_Set`, `TabList_Remove`, `Entities_Remove`, the
`SetLocation` slot of the entity vtable and the `StringsBuffer` helpers; their
bodies live in files that are not part of the sources at hand, and are
modelled here from the specification (each such definition says so).
-/

namespace ClassiCube

/-! ## Constants of `Entity.h` -/

/-- Source: `#define ENTITY_ADJUSTMENT 0.001f`. The value of the single-precision literal
`0.001f` (bit pattern `0x3A83126F`) is exactly `8589935 * 2^-33`. -/
def ENTITY_ADJUSTMENT : ℚ := 8589935 / 2 ^ 33

/-- Source: `#define ENTITIES_MAX_COUNT 256` -/
def ENTITIES_MAX_COUNT : Nat := 256

/-- Source: `#define ENTITIES_SELF_ID 255` -/
def ENTITIES_SELF_ID : Nat := 255

/-- Source: `#define TABLIST_MAX_NAMES 256` -/
def TABLIST_MAX_NAMES : Nat := 256

/-- Number of slots of `struct Entity* List[ENTITIES_MAX_COUNT]` in `_EntitiesData`. -/
def Entities_List_length : Nat := ENTITIES_MAX_COUNT

/-- Number of records of `struct NetPlayer NetPlayers_List[ENTITIES_SELF_ID]`. -/
def NetPlayers_List_length : Nat := ENTITIES_SELF_ID

/-- Number of values of the 8-bit `EntityID` type (`cc_uint8`). -/
def EntityID_count : Nat := 2 ^ 8

/-- Source: `#define LU_INCLUDES_POS 0x01` -/
def LU_INCLUDES_POS : Nat := 0x01
/-- Source: `#define LU_INCLUDES_PITCH 0x02` -/
def LU_INCLUDES_PITCH : Nat := 0x02
/-- Source: `#define LU_INCLUDES_YAW 0x04` -/
def LU_INCLUDES_YAW : Nat := 0x04
/-- Source: `#define LU_INCLUDES_ROTX 0x08` -/
def LU_INCLUDES_ROTX : Nat := 0x08
/-- Source: `#define LU_INCLUDES_ROTZ 0x10` -/
def LU_INCLUDES_ROTZ : Nat := 0x10
/-- Source: `#define LU_FLAG_RELATIVEPOS 0x20` -/
def LU_FLAG_RELATIVEPOS : Nat := 0x20
/-- Source: `#define LU_FLAG_X 0x40`, commented "TODO fill this in when implemented". -/
def LU_FLAG_X : Nat := 0x40
/-- Source: `#define LU_FLAG_INTERPOLATE 0x80` -/
def LU_FLAG_INTERPOLATE : Nat := 0x80

/-- Every `LU_*` mask that `Entity.h` defines for `LocationUpdate.flags`, in source order. -/
def LU_defined_masks : List Nat :=
  [LU_INCLUDES_POS, LU_INCLUDES_PITCH, LU_INCLUDES_YAW, LU_INCLUDES_ROTX, LU_INCLUDES_ROTZ,
   LU_FLAG_RELATIVEPOS, LU_FLAG_X, LU_FLAG_INTERPOLATE]

/-- The five field-presence masks `LU_INCLUDES_*`. -/
def LU_presence_masks : List Nat :=
  [LU_INCLUDES_POS, LU_INCLUDES_PITCH, LU_INCLUDES_YAW, LU_INCLUDES_ROTX, LU_INCLUDES_ROTZ]

/-- The two behaviour modifiers that carry a meaning: `RELATIVEPOS` and `INTERPOLATE`. -/
def LU_modifier_masks : List Nat := [LU_FLAG_RELATIVEPOS, LU_FLAG_INTERPOLATE]

/-- A mask is a single bit of an 8-bit field. -/
def isSingleBit8 (m : Nat) : Prop := ∃ k, k < 8 ∧ m = 2 ^ k

instance (m : Nat) : Decidable (isSingleBit8 m) := by
  unfold isSingleBit8; infer_instance

/-- Any two masks at different positions of the list have no bit in common. -/
def pairwiseDisjoint (ms : List Nat) : Prop := ms.Pairwise (fun a b => a &&& b = 0)

instance (ms : List Nat) : Decidable (pairwiseDisjoint ms) := by
  unfold pairwiseDisjoint; infer_instance

/-! ## The tab list table -/

/-- Events of `TabListEvents` that the tab list operations raise, with the entry id. -/
inductive TabListEvent where
  | Added (id : Nat)
  | Changed (id : Nat)
  | Removed (id : Nat)
  deriving DecidableEq, Repr

/-- Modelled from the spec: `struct StringsBuffer` is declared in `String.h`, which
is not among the sources. The spec describes it as a shared append-only string
buffer addressed by string index; it is the sequence of strings appended so far. -/
structure StringsBuffer where
  strings : List String
  deriving DecidableEq, Repr

/-- Number of strings held by the buffer (`_buffer.count`). -/
def StringsBuffer.count (b : StringsBuffer) : Nat := b.strings.length

/-- Modelled from the spec: `StringsBuffer_Add` (not among the sources) appends one
string at the end of the shared buffer. -/
def StringsBuffer_Add (b : StringsBuffer) (s : String) : StringsBuffer :=
  { strings := b.strings ++ [s] }

/-- Modelled from the spec: `StringsBuffer_UNSAFE_Get` (not among the sources)
returns the string held at a buffer index. The index is a C `int`; an index that is
negative or past the end has no defined result (`none`). -/
def StringsBuffer_UNSAFE_Get (b : StringsBuffer) (i : Int) : Option String :=
  if 0 ≤ i then b.strings[i.toNat]? else none

/-- The global `TabList` of type `struct _TabListData`.
`NameOffsets` are `cc_uint16`, `GroupRanks` and `_entityLinked` are `cc_uint8`.
`raised` is not a field of the C struct: it logs the `TabListEvents` raised so far. -/
structure TabListData where
  NameOffsets : List Nat
  GroupRanks : List Nat
  _buffer : StringsBuffer
  _entityLinked : List Nat
  raised : List TabListEvent
  deriving DecidableEq, Repr

/-- The arrays of `TabList` have their declared sizes: `NameOffsets[TABLIST_MAX_NAMES]`,
`GroupRanks[TABLIST_MAX_NAMES]` and `_entityLinked[TABLIST_MAX_NAMES >> 3]`. -/
def TabListData.WF (t : TabListData) : Prop :=
  t.NameOffsets.length = TABLIST_MAX_NAMES
  ∧ t.GroupRanks.length = TABLIST_MAX_NAMES
  ∧ t._entityLinked.length = TABLIST_MAX_NAMES >>> 3

instance (t : TabListData) : Decidable t.WF := by
  unfold TabListData.WF; infer_instance

/-- Conversion of a C `int` to `cc_uint8`. -/
def toUInt8 (n : Int) : Nat := (n % 256).toNat

/-- Conversion of a C `int` to `cc_uint16`. -/
def toUInt16 (n : Int) : Nat := (n % 65536).toNat

/-- Byte index `id >> 3` used by the `TabList_EntityLinked_*` macros. -/
def EntityLinked_index (id : Nat) : Nat := id >>> 3

/-- Bit position `id & 0x7` used by the `TabList_EntityLinked_*` macros. -/
def EntityLinked_bit (id : Nat) : Nat := id &&& 0x7

/-- Bit mask `1 << (id & 0x7)` used by the `TabList_EntityLinked_*` macros. -/
def EntityLinked_mask (id : Nat) : Nat := 1 <<< EntityLinked_bit id

/-- Source: `#define TabList_EntityLinked_Get(id) (TabList._entityLinked[id >> 3] & (1 << (id & 0x7)))` -/
def TabList_EntityLinked_Get (t : TabListData) (id : Nat) : Nat :=
  t._entityLinked.getD (EntityLinked_index id) 0 &&& EntityLinked_mask id

/-- Source: `#define TabList_EntityLinked_Set(id) (TabList._entityLinked[id >> 3] |= (cc_uint8)(1 << (id & 0x7)))` -/
def TabList_EntityLinked_Set (t : TabListData) (id : Nat) : TabListData :=
  let old := t._entityLinked.getD (EntityLinked_index id) 0
  let new := toUInt8 ((old ||| toUInt8 (EntityLinked_mask id) : Nat))
  { t with _entityLinked := List.set t._entityLinked (EntityLinked_index id) new }

/-- Source: `#define TabList_EntityLinked_Reset(id) (TabList._entityLinked[id >> 3] &= (cc_uint8)~(1 << (id & 0x7)))` -/
def TabList_EntityLinked_Reset (t : TabListData) (id : Nat) : TabListData :=
  let old := t._entityLinked.getD (EntityLinked_index id) 0
  let new := toUInt8 ((old &&& toUInt8 (~~~ (EntityLinked_mask id : Int)) : Nat))
  { t with _entityLinked := List.set t._entityLinked (EntityLinked_index id) new }

/-- Source: `#define TabList_UNSAFE_GetPlayer(id) StringsBuffer_UNSAFE_Get(&TabList._buffer, TabList.NameOffsets[id] - 3)` -/
def TabList_UNSAFE_GetPlayer (t : TabListData) (id : Nat) : Option String :=
  StringsBuffer_UNSAFE_Get t._buffer ((t.NameOffsets.getD id 0 : Int) - 3)

/-- Source: `#define TabList_UNSAFE_GetList(id) StringsBuffer_UNSAFE_Get(&TabList._buffer, TabList.NameOffsets[id] - 2)` -/
def TabList_UNSAFE_GetList (t : TabListData) (id : Nat) : Option String :=
  StringsBuffer_UNSAFE_Get t._buffer ((t.NameOffsets.getD id 0 : Int) - 2)

/-- Source: `#define TabList_UNSAFE_GetGroup(id) StringsBuffer_UNSAFE_Get(&TabList._buffer, TabList.NameOffsets[id] - 1)` -/
def TabList_UNSAFE_GetGroup (t : TabListData) (id : Nat) : Option String :=
  StringsBuffer_UNSAFE_Get t._buffer ((t.NameOffsets.getD id 0 : Int) - 1)

/-- Modelled from the spec: the tab list right after it was "reset wholesale" (the body that
clears it is not among the sources): every slot unused, no string in the buffer, no
entry linked. -/
def TabList_initial : TabListData :=
  { NameOffsets := List.replicate TABLIST_MAX_NAMES 0
    GroupRanks := List.replicate TABLIST_MAX_NAMES 0
    _buffer := { strings := [] }
    _entityLinked := List.replicate (TABLIST_MAX_NAMES >>> 3) 0
    raised := [] }

/-- Modelled from the spec: the body of `TabList_Remove` is not among the sources (the
header only declares it). Spec 4.6: "`Remove(id)` fails silently (no-op) if unused, else
clears offsets to the sentinel and fires Removed". -/
def TabList_Remove (t : TabListData) (id : Nat) : TabListData :=
  if t.NameOffsets.getD id 0 = 0 then t
  else { t with NameOffsets := t.NameOffsets.set id 0
                raised := t.raised ++ [TabListEvent.Removed id] }

/-- Modelled from the spec: the body of `TabList_Set` is not among the sources (the header
only declares it). Spec 4.6: "if slot `id` unused, appends three strings to the shared
buffer and records biased offsets + rank (fires Added); if slot used, appends three new
strings (old ones become unreachable dead bytes) and updates offsets/rank (fires
Changed)". The player string lands at buffer index `k = count`, and the offset recorded
in the 16-bit element is `k + 3`, which the accessors read back with biases 3, 2, 1. -/
def TabList_Set (t : TabListData) (id : Nat) (player list group : String) (rank : Nat) :
    TabListData :=
  let event := if t.NameOffsets.getD id 0 = 0 then TabListEvent.Added id
               else TabListEvent.Changed id
  let k := t._buffer.count
  let buffer := StringsBuffer_Add (StringsBuffer_Add (StringsBuffer_Add t._buffer player) list) group
  { t with NameOffsets := t.NameOffsets.set id (toUInt16 ((k + 3 : Nat) : Int))
           GroupRanks := t.GroupRanks.set id (toUInt8 (rank : Int))
           _buffer := buffer
           raised := t.raised ++ [event] }

/-- A call made on the tab list: `TabList_Set` with its arguments, or `TabList_Remove`. -/
inductive TabListOp where
  | Set (id : Nat) (player list group : String) (rank : Nat)
  | Remove (id : Nat)
  deriving DecidableEq, Repr

/-- Performs one call on the tab list. -/
def TabListOp.apply (t : TabListData) : TabListOp → TabListData
  | TabListOp.Set id player list group rank => TabList_Set t id player list group rank
  | TabListOp.Remove id => TabList_Remove t id

/-- Performs a sequence of calls, first call first. -/
def TabList_run (t : TabListData) (ops : List TabListOp) : TabListData :=
  ops.foldl TabListOp.apply t

/-- Every stored offset points inside the buffer: no entry refers to a string that was
never appended. -/
def TabListData.OffsetsInBuffer (t : TabListData) : Prop :=
  ∀ o ∈ t.NameOffsets, o ≤ t._buffer.count

instance (t : TabListData) : Decidable t.OffsetsInBuffer := by
  unfold TabListData.OffsetsInBuffer; infer_instance

/-! ## The entity registry -/

/-- Errors of the registry contract (spec 4.1 and 7). -/
inductive EntityError where
  | SlotOccupied
  | NotFound
  deriving DecidableEq, Repr

/-- The global `Entities` of type `struct _EntitiesData`, for entity records of type `E`.
A `NULL` slot of `List` is `none`. -/
structure EntitiesData (E : Type) where
  NamesMode : Nat
  ShadowsMode : Nat
  List : List (Option E)

/-- The globals that `Entities_Remove` works on: the registry, the tab list, and the log of
ids for which `EntityEvents.Removed` was raised. -/
structure Game (E : Type) where
  Entities : EntitiesData E
  TabList : TabListData
  removed : List Nat

/-- Modelled from the spec: the body of `Entities_Remove` is not among the sources (the
header only declares it). Spec 4.1: "`Remove(id)` fails with `NotFound` if unbound,
otherwise detaches the entity, fires a removal notification, and, if a linked tab-list
entry exists for `id`, removes it too (cascading delete)". -/
def Entities_Remove {E : Type} (g : Game E) (id : Nat) : Except EntityError (Game E) :=
  match g.Entities.List.getD id none with
  | none => Except.error EntityError.NotFound
  | some _ =>
    let entities := { g.Entities with List := g.Entities.List.set id none }
    let tabList :=
      if TabList_EntityLinked_Get g.TabList id ≠ 0 then TabList_Remove g.TabList id
      else g.TabList
    Except.ok { Entities := entities, TabList := tabList, removed := g.removed ++ [id] }

/-! ## Location updates -/

/-- Vector type `Vec3` with components of scalar type `F` (`float` in the source). -/
structure Vec3 (F : Type) where
  x : F
  y : F
  z : F
  deriving DecidableEq, Repr

/-- Component-wise sum of two vectors. -/
def Vec3.add {F : Type} [Add F] (a b : Vec3 F) : Vec3 F :=
  { x := a.x + b.x, y := a.y + b.y, z := a.z + b.z }

/-- Source: `struct LocationUpdate { Vec3 pos; float pitch, yaw, rotX, rotZ; cc_uint8 flags; }` -/
structure LocationUpdate (F : Type) where
  pos : Vec3 F
  pitch : F
  yaw : F
  rotX : F
  rotZ : F
  flags : Nat
  deriving DecidableEq, Repr

/-- Source: `struct EntityLocation { Vec3 pos; float pitch, yaw, rotX, rotY, rotZ; }` -/
structure EntityLocation (F : Type) where
  pos : Vec3 F
  pitch : F
  yaw : F
  rotX : F
  rotY : F
  rotZ : F
  deriving DecidableEq, Repr

/-- The position, orientation and interpolation fields of `struct Entity`. The model,
skin, texture and animation fields are left out: no operation modelled here reads or
writes them. -/
structure Entity (F : Type) where
  Position : Vec3 F
  Pitch : F
  Yaw : F
  RotX : F
  RotY : F
  RotZ : F
  Velocity : Vec3 F
  prev : EntityLocation F
  next : EntityLocation F
  deriving DecidableEq, Repr

/-- Whether a flag mask is set in a flags byte (`flags & mask` is non-zero). -/
def hasFlag (flags mask : Nat) : Bool := flags &&& mask != 0

/-- Modelled from the spec: the functions behind the `SetLocation` slot of
`struct EntityVTABLE` are not among the sources. Spec 4.2 `Apply(entity, update)`:
(1) if `POS` is flagged the new position is `update.pos`, or `entity.next.pos + update.pos`
when `RELATIVEPOS` is flagged, with `ENTITY_ADJUSTMENT` added to the vertical component;
(2) every flagged orientation field is set in a working copy of `entity.next`;
(3) if `INTERPOLATE` is flagged, `prev` becomes the old `next` and `next` the working copy,
otherwise both `prev` and `next` are set to the working copy.
"Edge case: an update with no flags set is a no-op": with a flags byte of 0 the entity is
returned as it is and none of the steps is taken.
The scalar type `F` stands for `float`; `adjustment` is `ENTITY_ADJUSTMENT`. -/
def SetLocation {F : Type} [Add F] (adjustment : F) (e : Entity F) (update : LocationUpdate F) :
    Entity F :=
  if update.flags = 0 then e
  else
    let w0 := e.next
    let w1 :=
      if hasFlag update.flags LU_INCLUDES_POS then
        let p := if hasFlag update.flags LU_FLAG_RELATIVEPOS then Vec3.add e.next.pos update.pos
                 else update.pos
        { w0 with pos := { p with y := p.y + adjustment } }
      else w0
    let w2 := if hasFlag update.flags LU_INCLUDES_PITCH then { w1 with pitch := update.pitch } else w1
    let w3 := if hasFlag update.flags LU_INCLUDES_YAW then { w2 with yaw := update.yaw } else w2
    let w4 := if hasFlag update.flags LU_INCLUDES_ROTX then { w3 with rotX := update.rotX } else w3
    let w5 := if hasFlag update.flags LU_INCLUDES_ROTZ then { w4 with rotZ := update.rotZ } else w4
    if hasFlag update.flags LU_FLAG_INTERPOLATE then { e with prev := e.next, next := w5 }
    else { e with prev := w5, next := w5 }

/-! ## Arithmetic of the linked-entry bitset -/

theorem and_one_shiftLeft_ne_zero (a k : Nat) : a &&& (1 <<< k) ≠ 0 ↔ a.testBit k = true := by
  rw [Nat.one_shiftLeft, Nat.and_two_pow]
  have hpos : 0 < 2 ^ k := Nat.two_pow_pos k
  cases h : a.testBit k
  · simp
  · simp

theorem EntityLinked_index_eq (id : Nat) : EntityLinked_index id = id / 8 := by
  unfold EntityLinked_index
  rw [Nat.shiftRight_eq_div_pow]

theorem EntityLinked_bit_eq (id : Nat) : EntityLinked_bit id = id % 8 :=
  Nat.and_pow_two_sub_one_eq_mod id 3

theorem EntityLinked_mask_eq (id : Nat) : EntityLinked_mask id = 2 ^ (id % 8) := by
  unfold EntityLinked_mask
  rw [Nat.one_shiftLeft, EntityLinked_bit_eq]

theorem toUInt8_natCast (n : Nat) : toUInt8 (n : Int) = n % 256 := by
  unfold toUInt8; omega

theorem EntityLinked_mask_mod (id : Nat) : EntityLinked_mask id % 256 = 2 ^ (id % 8) := by
  rw [EntityLinked_mask_eq]
  have hk : id % 8 < 8 := Nat.mod_lt _ (by decide)
  generalize id % 8 = k at hk
  interval_cases k <;> rfl

theorem toUInt8_not_mask (id : Nat) :
    toUInt8 (~~~ (EntityLinked_mask id : Int)) = (2 ^ 8 - 1) ^^^ 2 ^ (id % 8) := by
  rw [EntityLinked_mask_eq]
  have hk : id % 8 < 8 := Nat.mod_lt _ (by decide)
  generalize id % 8 = k at hk
  interval_cases k <;> decide

theorem testBit_mod_256 (x j : Nat) : (x % 256).testBit j = (decide (j < 8) && x.testBit j) :=
  Nat.testBit_mod_two_pow x 8 j

/-- Two ids with the same byte index and the same bit position are equal. -/
theorem id_eq_of_index_bit {id id2 : Nat} (hi : id / 8 = id2 / 8) (hb : id % 8 = id2 % 8) :
    id = id2 := by
  omega

/-- Reading the linked bit of `id2` is reading bit `id2 % 8` of byte `id2 / 8`. -/
theorem TabList_EntityLinked_Get_ne_zero (t : TabListData) (id2 : Nat) :
    TabList_EntityLinked_Get t id2 ≠ 0 ↔
      (t._entityLinked.getD (id2 / 8) 0).testBit (id2 % 8) = true := by
  unfold TabList_EntityLinked_Get EntityLinked_mask
  rw [and_one_shiftLeft_ne_zero, EntityLinked_bit_eq, EntityLinked_index_eq]

theorem getD_set_self {l : List Nat} {i : Nat} (h : i < l.length) (v : Nat) :
    (l.set i v).getD i 0 = v := by
  simp [List.getD_eq_getElem?_getD, List.getElem?_set, h]

theorem getD_set_other {α : Type} (l : List α) {i j : Nat} (h : i ≠ j) (v d : α) :
    (l.set i v).getD j d = l.getD j d := by
  simp [List.getD_eq_getElem?_getD, List.getElem?_set, h]

/-! ## Theorems about the linked-entry bitset -/

/-- C4: after `TabList_EntityLinked_Set(id)`, an id `id2` of `[0,255]` is linked exactly
when `id2 = id` or `id2` was linked before, for every content of the 32-byte array. -/
theorem TabList_EntityLinked_Set_spec (t : TabListData)
    (hlen : t._entityLinked.length = TABLIST_MAX_NAMES >>> 3)
    (id id2 : Nat) (hid : id < 256) (_hid2 : id2 < 256) :
    TabList_EntityLinked_Get (TabList_EntityLinked_Set t id) id2 ≠ 0 ↔
      (id2 = id ∨ TabList_EntityLinked_Get t id2 ≠ 0) := by
  have hlen32 : t._entityLinked.length = 32 := hlen
  rw [TabList_EntityLinked_Get_ne_zero, TabList_EntityLinked_Get_ne_zero]
  unfold TabList_EntityLinked_Set
  simp only [EntityLinked_index_eq, toUInt8_natCast, EntityLinked_mask_mod]
  by_cases hi : id / 8 = id2 / 8
  · rw [hi, getD_set_self (by omega), testBit_mod_256, Nat.testBit_or, Nat.testBit_two_pow]
    have h8 : id2 % 8 < 8 := Nat.mod_lt _ (by decide)
    by_cases hb : id % 8 = id2 % 8
    · have : id = id2 := id_eq_of_index_bit hi hb
      simp [h8, hb, this]
    · have : id2 ≠ id := fun h => hb (by rw [h])
      simp [h8, hb, this]
  · rw [getD_set_other _ hi]
    have : id2 ≠ id := fun h => hi (by rw [h])
    simp [this]

theorem TabList_EntityLinked_Set_spec_witness :
    TabList_EntityLinked_Get (TabList_EntityLinked_Set
        { NameOffsets := List.replicate 256 0, GroupRanks := List.replicate 256 0,
          _buffer := { strings := [] }, _entityLinked := List.replicate 32 0, raised := [] } 200) 200 ≠ 0 ↔
      (200 = 200 ∨ TabList_EntityLinked_Get
        { NameOffsets := List.replicate 256 0, GroupRanks := List.replicate 256 0,
          _buffer := { strings := [] }, _entityLinked := List.replicate 32 0, raised := [] } 200 ≠ 0) :=
  TabList_EntityLinked_Set_spec _ (by decide) 200 200 (by decide) (by decide)

theorem getD_lt_of_forall_lt {l : List Nat} {n : Nat} (h : ∀ b ∈ l, b < n) (hn : 0 < n)
    (i : Nat) : l.getD i 0 < n := by
  rw [List.getD_eq_getElem?_getD]
  cases hget : l[i]? with
  | none => simpa using hn
  | some b => simpa using h b (List.getElem?_mem hget)

theorem getD_le_of_forall_le {l : List Nat} {n : Nat} (h : ∀ b ∈ l, b ≤ n) (i : Nat) :
    l.getD i 0 ≤ n := by
  rw [List.getD_eq_getElem?_getD]
  cases hget : l[i]? with
  | none => exact Nat.zero_le n
  | some b => simpa using h b (List.getElem?_mem hget)

/-- C5: after `TabList_EntityLinked_Reset(id)`, an id `id2` of `[0,255]` is linked exactly
when `id2 ≠ id` and `id2` was linked before; the 8-bit truncation of `~(1 << (id & 7))` is
`255 - (1 << (id & 7))`, the byte `id >> 3` loses bit `id & 7` and keeps its other bits,
and every other byte of the array is unchanged. -/
theorem TabList_EntityLinked_Reset_spec (t : TabListData)
    (hlen : t._entityLinked.length = TABLIST_MAX_NAMES >>> 3)
    (hbytes : ∀ b ∈ t._entityLinked, b < 256)
    (id id2 : Nat) (hid : id < 256) (_hid2 : id2 < 256) :
    (TabList_EntityLinked_Get (TabList_EntityLinked_Reset t id) id2 ≠ 0 ↔
      (id2 ≠ id ∧ TabList_EntityLinked_Get t id2 ≠ 0))
    ∧ toUInt8 (~~~ (EntityLinked_mask id : Int)) = 255 - (1 <<< (id &&& 0x7))
    ∧ (∀ j, ((TabList_EntityLinked_Reset t id)._entityLinked.getD (id >>> 3) 0).testBit j =
          ((t._entityLinked.getD (id >>> 3) 0).testBit j && decide (j ≠ id &&& 0x7)))
    ∧ (∀ i, i ≠ id >>> 3 →
          (TabList_EntityLinked_Reset t id)._entityLinked.getD i 0 = t._entityLinked.getD i 0) := by
  have hlen32 : t._entityLinked.length = 32 := hlen
  have h8 : id % 8 < 8 := Nat.mod_lt _ (by decide)
  have hbit : ∀ j, ((TabList_EntityLinked_Reset t id)._entityLinked.getD (id / 8) 0).testBit j =
      ((t._entityLinked.getD (id / 8) 0).testBit j && decide (j ≠ id % 8)) := by
    intro j
    unfold TabList_EntityLinked_Reset
    simp only [EntityLinked_index_eq, toUInt8_natCast, toUInt8_not_mask]
    rw [getD_set_self (by omega), testBit_mod_256, Nat.testBit_and, Nat.testBit_xor,
      Nat.testBit_two_pow_sub_one, Nat.testBit_two_pow]
    by_cases hj : j < 8
    · by_cases hjk : id % 8 = j
      · simp [hj, hjk]
      · have : j ≠ id % 8 := fun h => hjk h.symm
        simp [hj, hjk, this]
    · have hlt : t._entityLinked.getD (id / 8) 0 < 2 ^ j :=
        lt_of_lt_of_le (getD_lt_of_forall_lt hbytes (by decide) _)
          (le_trans (by decide : 256 ≤ 2 ^ 8) (Nat.pow_le_pow_right (by decide) (by omega)))
      rw [Nat.testBit_lt_two_pow hlt]
      simp [hj]
  refine ⟨?_, ?_, ?_, ?_⟩
  · rw [TabList_EntityLinked_Get_ne_zero, TabList_EntityLinked_Get_ne_zero]
    by_cases hi : id / 8 = id2 / 8
    · rw [← hi, hbit]
      by_cases hb : id2 % 8 = id % 8
      · have : id2 = id := id_eq_of_index_bit hi.symm hb
        simp [hb, this]
      · have : id2 ≠ id := fun h => hb (by rw [h])
        simp [hb, this]
    · unfold TabList_EntityLinked_Reset
      simp only [EntityLinked_index_eq]
      rw [getD_set_other _ hi]
      have : id2 ≠ id := fun h => hi (by rw [h])
      simp [this]
  · rw [toUInt8_not_mask]
    have hb := EntityLinked_bit_eq id
    unfold EntityLinked_bit at hb
    rw [hb, Nat.one_shiftLeft]
    generalize id % 8 = k at h8
    interval_cases k <;> decide
  · intro j
    have hb := EntityLinked_bit_eq id
    have hx := EntityLinked_index_eq id
    unfold EntityLinked_bit at hb
    unfold EntityLinked_index at hx
    rw [hb, hx]
    exact hbit j
  · intro i hi
    unfold TabList_EntityLinked_Reset
    simp only []
    exact getD_set_other _ (fun h => hi h.symm) _ _

theorem TabList_EntityLinked_Reset_spec_witness :
    (TabList_EntityLinked_Get (TabList_EntityLinked_Reset
        { NameOffsets := List.replicate 256 0, GroupRanks := List.replicate 256 0,
          _buffer := { strings := [] }, _entityLinked := List.replicate 32 255, raised := [] } 77) 78 ≠ 0 ↔
      (78 ≠ 77 ∧ TabList_EntityLinked_Get
        { NameOffsets := List.replicate 256 0, GroupRanks := List.replicate 256 0,
          _buffer := { strings := [] }, _entityLinked := List.replicate 32 255, raised := [] } 78 ≠ 0)) :=
  (TabList_EntityLinked_Reset_spec _ (by decide) (by decide) 77 78 (by decide) (by decide)).1

/-- C10: the map `id ↦ (id >> 3, id & 7)` of the `TabList_EntityLinked_*` macros sends `[0,255]`
into `[0, TABLIST_MAX_NAMES >> 3) × [0,8) = [0,32) × [0,8)` and is injective there, so every
access is inside the 32-byte array and no bit is shared by two ids; every bit of the array
belongs to an id. -/
theorem EntityLinked_index_bit_spec (id id2 : Nat) (hid : id < 256) (_hid2 : id2 < 256) :
    TABLIST_MAX_NAMES >>> 3 = 32
    ∧ EntityLinked_index id < TABLIST_MAX_NAMES >>> 3
    ∧ EntityLinked_bit id < 8
    ∧ ((EntityLinked_index id, EntityLinked_bit id) = (EntityLinked_index id2, EntityLinked_bit id2)
        → id = id2)
    ∧ (∀ t : TabListData, t._entityLinked.length = TABLIST_MAX_NAMES >>> 3 →
        EntityLinked_index id < t._entityLinked.length)
    ∧ (∀ i k, i < 32 → k < 8 →
        ∃ id3, id3 < 256 ∧ EntityLinked_index id3 = i ∧ EntityLinked_bit id3 = k) := by
  have h32 : TABLIST_MAX_NAMES >>> 3 = 32 := by decide
  rw [h32]
  simp only [EntityLinked_index_eq, EntityLinked_bit_eq, Prod.mk.injEq]
  refine ⟨trivial, by omega, Nat.mod_lt _ (by decide), ?_, ?_, ?_⟩
  · rintro ⟨h1, h2⟩
    exact id_eq_of_index_bit h1 h2
  · intro t ht
    omega
  · intro i k hi hk
    exact ⟨8 * i + k, by omega, by omega, by omega⟩

theorem EntityLinked_index_bit_spec_witness :
    EntityLinked_index 255 < TABLIST_MAX_NAMES >>> 3 ∧ EntityLinked_bit 255 < 8 :=
  ⟨(EntityLinked_index_bit_spec 255 0 (by decide) (by decide)).2.1,
   (EntityLinked_index_bit_spec 255 0 (by decide) (by decide)).2.2.1⟩

/-! ## Theorems about the constants -/

/-- C7: the registry matches the 8-bit id space: every id of `[0,255]` is a valid index of
`Entities.List` (and only those are), `ENTITIES_SELF_ID = 255` is the last slot
`ENTITIES_MAX_COUNT - 1`, and an id is a valid index of `NetPlayers_List` exactly when it
is not `ENTITIES_SELF_ID`. -/
theorem registry_matches_id_space (id : Nat) (hid : id < 256) :
    ENTITIES_MAX_COUNT = 256
    ∧ EntityID_count = ENTITIES_MAX_COUNT
    ∧ id < Entities_List_length
    ∧ (∀ n, n < Entities_List_length ↔ n < EntityID_count)
    ∧ ENTITIES_SELF_ID = 255
    ∧ ENTITIES_SELF_ID = ENTITIES_MAX_COUNT - 1
    ∧ ENTITIES_SELF_ID < Entities_List_length
    ∧ (id < NetPlayers_List_length ↔ id ≠ ENTITIES_SELF_ID) := by
  have h1 : Entities_List_length = 256 := rfl
  have h2 : NetPlayers_List_length = 255 := rfl
  have h3 : ENTITIES_SELF_ID = 255 := rfl
  have h4 : ENTITIES_MAX_COUNT = 256 := rfl
  have h5 : EntityID_count = 256 := rfl
  rw [h1, h2, h3, h4, h5]
  refine ⟨rfl, rfl, hid, fun n => Iff.rfl, rfl, rfl, by omega, by omega⟩

theorem registry_matches_id_space_witness :
    (255 < NetPlayers_List_length ↔ 255 ≠ ENTITIES_SELF_ID)
    ∧ (254 < NetPlayers_List_length ↔ 254 ≠ ENTITIES_SELF_ID) :=
  ⟨(registry_matches_id_space 255 (by decide)).2.2.2.2.2.2.2,
   (registry_matches_id_space 254 (by decide)).2.2.2.2.2.2.2⟩

/-- C8 as stated fails: `Entity.h` defines an eighth mask for the flags byte, `LU_FLAG_X`
(0x40), which is none of the five presence flags and two behaviour modifiers. -/
theorem LU_masks_claim_counterexample :
    ¬ (pairwiseDisjoint (LU_presence_masks ++ LU_modifier_masks)
        ∧ (∀ m ∈ LU_presence_masks ++ LU_modifier_masks, isSingleBit8 m)
        ∧ (∀ m ∈ LU_defined_masks, m ∈ LU_presence_masks ++ LU_modifier_masks)) := by
  decide

/-- C8 amended: the five presence flags and the two behaviour modifiers are seven
pairwise-disjoint single bits of the 8-bit flags field; every `LU_*` mask the code defines
is one of these seven or the reserved placeholder `LU_FLAG_X` (0x40), itself a single bit
disjoint from the seven, so that the eight defined masks are pairwise disjoint. -/
theorem LU_masks_spec :
    (LU_presence_masks ++ LU_modifier_masks).length = 7
    ∧ pairwiseDisjoint (LU_presence_masks ++ LU_modifier_masks)
    ∧ (∀ m ∈ LU_presence_masks ++ LU_modifier_masks, isSingleBit8 m)
    ∧ (∀ m ∈ LU_defined_masks, m ∈ LU_presence_masks ++ LU_modifier_masks ∨ m = LU_FLAG_X)
    ∧ LU_FLAG_X ∈ LU_defined_masks
    ∧ LU_FLAG_X ∉ LU_presence_masks ++ LU_modifier_masks
    ∧ isSingleBit8 LU_FLAG_X
    ∧ pairwiseDisjoint LU_defined_masks := by
  decide

/-! ## Theorems about the tab list accessors -/

theorem StringsBuffer_UNSAFE_Get_natCast (b : StringsBuffer) (n : Nat) :
    StringsBuffer_UNSAFE_Get b (n : Int) = b.strings[n]? := by
  unfold StringsBuffer_UNSAFE_Get
  rw [if_pos (Int.ofNat_nonneg n), Int.toNat_ofNat]

/-- Reading an entry whose stored offset is the 16-bit image of `k + 3`. -/
theorem TabList_UNSAFE_Get_of_offset (t : TabListData) (id k : Nat) (player list group : String)
    (hk : k + 3 ≤ 65535)
    (hoff : t.NameOffsets.getD id 0 = toUInt16 ((k + 3 : Nat) : Int))
    (hp : t._buffer.strings[k]? = some player)
    (hl : t._buffer.strings[k + 1]? = some list)
    (hg : t._buffer.strings[k + 2]? = some group) :
    t.NameOffsets.getD id 0 ≠ 0
    ∧ ((t.NameOffsets.getD id 0 : Int) - 3 = k
        ∧ (t.NameOffsets.getD id 0 : Int) - 2 = k + 1
        ∧ (t.NameOffsets.getD id 0 : Int) - 1 = k + 2)
    ∧ TabList_UNSAFE_GetPlayer t id = some player
    ∧ TabList_UNSAFE_GetList t id = some list
    ∧ TabList_UNSAFE_GetGroup t id = some group := by
  have hv : t.NameOffsets.getD id 0 = k + 3 := by
    rw [hoff]; unfold toUInt16; omega
  unfold TabList_UNSAFE_GetPlayer TabList_UNSAFE_GetList TabList_UNSAFE_GetGroup
  rw [hv]
  have e3 : (((k + 3 : Nat) : Int) - 3) = (k : Int) := by omega
  have e2 : (((k + 3 : Nat) : Int) - 2) = ((k + 1 : Nat) : Int) := by omega
  have e1 : (((k + 3 : Nat) : Int) - 1) = ((k + 2 : Nat) : Int) := by omega
  refine ⟨by omega, ⟨by omega, by omega, by omega⟩, ?_, ?_, ?_⟩
  · rw [e3, StringsBuffer_UNSAFE_Get_natCast]; exact hp
  · rw [e2, StringsBuffer_UNSAFE_Get_natCast]; exact hl
  · rw [e1, StringsBuffer_UNSAFE_Get_natCast]; exact hg

/-- C6: when the three strings of an entry sit at buffer indices `k`, `k+1`, `k+2`, with
`k + 3 ≤ 65535`, and the biased value `k + 3` is stored in the 16-bit `NameOffsets[id]`,
the stored offset is not the sentinel 0 and the three accessors read indices `k`, `k+1`
and `k+2`, returning those strings. -/
theorem TabList_UNSAFE_Get_bias (t : TabListData) (id k : Nat) (player list group : String)
    (hk : k + 3 ≤ 65535)
    (hoff : t.NameOffsets.getD id 0 = toUInt16 ((k + 3 : Nat) : Int))
    (hp : t._buffer.strings[k]? = some player)
    (hl : t._buffer.strings[k + 1]? = some list)
    (hg : t._buffer.strings[k + 2]? = some group) :
    t.NameOffsets.getD id 0 ≠ 0
    ∧ ((t.NameOffsets.getD id 0 : Int) - 3 = k
        ∧ (t.NameOffsets.getD id 0 : Int) - 2 = k + 1
        ∧ (t.NameOffsets.getD id 0 : Int) - 1 = k + 2)
    ∧ TabList_UNSAFE_GetPlayer t id = some player
    ∧ TabList_UNSAFE_GetList t id = some list
    ∧ TabList_UNSAFE_GetGroup t id = some group :=
  TabList_UNSAFE_Get_of_offset t id k player list group hk hoff hp hl hg

theorem TabList_UNSAFE_Get_bias_witness :
    TabList_UNSAFE_GetPlayer
        { NameOffsets := [0, 3], GroupRanks := [0, 0],
          _buffer := { strings := ["Steve", "&aSteve", "Players"] },
          _entityLinked := [0], raised := [] } 1 = some "Steve" :=
  (TabList_UNSAFE_Get_bias _ 1 0 "Steve" "&aSteve" "Players" (by decide) (by decide)
    (by decide) (by decide) (by decide)).2.2.1

/-! ## Lemmas about `TabList_Set` and `TabList_Remove` -/

theorem getD_set {α : Type} (l : List α) (i j : Nat) (v d : α) :
    (l.set i v).getD j d = if i = j ∧ i < l.length then v else l.getD j d := by
  simp only [List.getD_eq_getElem?_getD, List.getElem?_set]
  by_cases hij : i = j
  · subst hij
    by_cases hlt : i < l.length
    · simp [hlt]
    · have : l[i]? = none := List.getElem?_eq_none (by omega)
      simp [hlt, this]
  · simp [hij]

theorem toUInt16_le (n : Nat) : toUInt16 (n : Int) ≤ n := by
  unfold toUInt16; omega

theorem TabList_Set_strings (t : TabListData) (id : Nat) (player list group : String)
    (rank : Nat) :
    (TabList_Set t id player list group rank)._buffer.strings
      = t._buffer.strings ++ [player, list, group] := by
  simp [TabList_Set, StringsBuffer_Add]

theorem TabList_Set_count (t : TabListData) (id : Nat) (player list group : String)
    (rank : Nat) :
    (TabList_Set t id player list group rank)._buffer.count = t._buffer.count + 3 := by
  simp [StringsBuffer.count, TabList_Set_strings]

theorem TabList_Set_NameOffsets (t : TabListData) (id : Nat) (player list group : String)
    (rank : Nat) :
    (TabList_Set t id player list group rank).NameOffsets
      = t.NameOffsets.set id (toUInt16 ((t._buffer.count + 3 : Nat) : Int)) := rfl

theorem TabList_Set_GroupRanks (t : TabListData) (id : Nat) (player list group : String)
    (rank : Nat) :
    (TabList_Set t id player list group rank).GroupRanks
      = t.GroupRanks.set id (toUInt8 (rank : Int)) := rfl

theorem TabList_Set_entityLinked (t : TabListData) (id : Nat) (player list group : String)
    (rank : Nat) :
    (TabList_Set t id player list group rank)._entityLinked = t._entityLinked := rfl

theorem TabList_Remove_buffer (t : TabListData) (id : Nat) :
    (TabList_Remove t id)._buffer = t._buffer := by
  unfold TabList_Remove; split <;> rfl

theorem TabList_Remove_GroupRanks (t : TabListData) (id : Nat) :
    (TabList_Remove t id).GroupRanks = t.GroupRanks := by
  unfold TabList_Remove; split <;> rfl

theorem TabList_Remove_entityLinked (t : TabListData) (id : Nat) :
    (TabList_Remove t id)._entityLinked = t._entityLinked := by
  unfold TabList_Remove; split <;> rfl

theorem TabList_Remove_NameOffsets_getD (t : TabListData) (id i : Nat) :
    (TabList_Remove t id).NameOffsets.getD i 0
      = if i = id then 0 else t.NameOffsets.getD i 0 := by
  unfold TabList_Remove
  by_cases h0 : t.NameOffsets.getD id 0 = 0
  · rw [if_pos h0]
    by_cases hi : i = id
    · rw [if_pos hi, hi, h0]
    · rw [if_neg hi]
  · rw [if_neg h0]
    simp only [getD_set]
    by_cases hi : i = id
    · subst hi
      have hlt : i < t.NameOffsets.length := by
        by_contra hge
        apply h0
        rw [List.getD_eq_getElem?_getD, List.getElem?_eq_none (by omega)]
        rfl
      simp [hlt]
    · have : ¬ id = i := fun h => hi h.symm
      simp [hi, this]

theorem TabList_Remove_NameOffsets_length (t : TabListData) (id : Nat) :
    (TabList_Remove t id).NameOffsets.length = t.NameOffsets.length := by
  unfold TabList_Remove; split
  · rfl
  · simp

theorem getElem?_append_three {α : Type} (l : List α) (a b c : α) :
    (l ++ [a, b, c])[l.length]? = some a
    ∧ (l ++ [a, b, c])[l.length + 1]? = some b
    ∧ (l ++ [a, b, c])[l.length + 2]? = some c := by
  refine ⟨?_, ?_, ?_⟩
  · rw [List.getElem?_append_right (Nat.le_refl _), Nat.sub_self]; rfl
  · rw [List.getElem?_append_right (by omega), Nat.add_sub_cancel_left]; rfl
  · rw [List.getElem?_append_right (by omega), Nat.add_sub_cancel_left]; rfl

/-- A read below the old end of the buffer is not affected by appending strings. -/
theorem StringsBuffer_UNSAFE_Get_append (b : StringsBuffer) (extra : List String) (i : Int)
    (h : i < b.count) :
    StringsBuffer_UNSAFE_Get { strings := b.strings ++ extra } i
      = StringsBuffer_UNSAFE_Get b i := by
  unfold StringsBuffer_UNSAFE_Get
  unfold StringsBuffer.count at h
  by_cases h0 : 0 ≤ i
  · rw [if_pos h0, if_pos h0]
    exact List.getElem?_append_left (by omega)
  · rw [if_neg h0, if_neg h0]

theorem TabListOp.apply_WF (t : TabListData) (op : TabListOp) (h : t.WF) : (op.apply t).WF := by
  cases op with
  | Set id player list group rank =>
    exact ⟨by rw [TabListOp.apply, TabList_Set_NameOffsets, List.length_set]; exact h.1,
           by rw [TabListOp.apply, TabList_Set_GroupRanks, List.length_set]; exact h.2.1,
           by rw [TabListOp.apply, TabList_Set_entityLinked]; exact h.2.2⟩
  | Remove id =>
    exact ⟨by rw [TabListOp.apply, TabList_Remove_NameOffsets_length]; exact h.1,
           by rw [TabListOp.apply, TabList_Remove_GroupRanks]; exact h.2.1,
           by rw [TabListOp.apply, TabList_Remove_entityLinked]; exact h.2.2⟩

theorem TabList_initial_WF : TabList_initial.WF :=
  ⟨List.length_replicate _ _, List.length_replicate _ _, List.length_replicate _ _⟩

theorem TabList_run_nil (t : TabListData) : TabList_run t [] = t := rfl

theorem TabList_run_cons (t : TabListData) (op : TabListOp) (ops : List TabListOp) :
    TabList_run t (op :: ops) = TabList_run (op.apply t) ops := rfl

theorem TabList_run_WF (ops : List TabListOp) (t : TabListData) (h : t.WF) :
    (TabList_run t ops).WF := by
  induction ops generalizing t with
  | nil => exact h
  | cons op ops ih => exact ih _ (TabListOp.apply_WF t op h)

/-- Every state reached from any state whose offsets point inside the buffer has its
offsets inside the buffer, wrapped or not. -/
theorem TabList_run_OffsetsInBuffer (ops : List TabListOp) (t : TabListData)
    (h : t.OffsetsInBuffer) : (TabList_run t ops).OffsetsInBuffer := by
  induction ops generalizing t with
  | nil => exact h
  | cons op ops ih =>
    rw [TabList_run_cons]
    apply ih
    intro o ho
    cases op with
    | Set id player list group rank =>
      simp only [TabListOp.apply, TabList_Set_count]
      simp only [TabListOp.apply, TabList_Set_NameOffsets] at ho
      have hv := toUInt16_le (t._buffer.count + 3)
      rcases List.mem_or_eq_of_mem_set ho with hmem | heq
      · have := h o hmem
        omega
      · omega
    | Remove id =>
      simp only [TabListOp.apply, TabList_Remove_buffer]
      simp only [TabListOp.apply, TabList_Remove] at ho
      split at ho
      · exact h o ho
      · rcases List.mem_or_eq_of_mem_set ho with hmem | heq
        · exact h o hmem
        · omega

theorem TabList_initial_OffsetsInBuffer : TabList_initial.OffsetsInBuffer := by
  intro o ho
  have := List.eq_of_mem_replicate ho
  omega

/-! ## Theorems about `TabList_Set` and `TabList_Remove` -/

/-- C2: for an occupied slot `Entities.List[id]`, `Entities_Remove(id)` succeeds and empties
the slot; if `TabList_EntityLinked_Get(id)` was non-zero the tab-list entry `id` is removed
(`NameOffsets[id] = 0`), and if it was zero `NameOffsets`, `GroupRanks` and the string
buffer are unchanged. -/
theorem Entities_Remove_spec {E : Type} (g : Game E) (id : Nat)
    (hocc : g.Entities.List.getD id none ≠ none) :
    ∃ g2, Entities_Remove g id = Except.ok g2
      ∧ g2.Entities.List.getD id none = none
      ∧ (TabList_EntityLinked_Get g.TabList id ≠ 0 → g2.TabList.NameOffsets.getD id 0 = 0)
      ∧ (TabList_EntityLinked_Get g.TabList id = 0 →
          g2.TabList.NameOffsets = g.TabList.NameOffsets
          ∧ g2.TabList.GroupRanks = g.TabList.GroupRanks
          ∧ g2.TabList._buffer = g.TabList._buffer) := by
  unfold Entities_Remove
  cases hslot : g.Entities.List.getD id none with
  | none => exact absurd hslot hocc
  | some e =>
    refine ⟨_, rfl, ?_, ?_, ?_⟩
    · simp only [getD_set]
      split
      · rfl
      · rename_i hn
        rw [List.getD_eq_getElem?_getD, List.getElem?_eq_none]
        · rfl
        · by_contra hlt
          exact hn ⟨trivial, by omega⟩
    · intro hlinked
      simp only [if_pos hlinked]
      rw [TabList_Remove_NameOffsets_getD, if_pos rfl]
    · intro hunlinked
      have : ¬ (TabList_EntityLinked_Get g.TabList id ≠ 0) := fun h => h hunlinked
      rw [if_neg this]
      exact ⟨rfl, rfl, rfl⟩

theorem Entities_Remove_spec_witness :
    ∃ g2, Entities_Remove
        ({ Entities := { NamesMode := 0, ShadowsMode := 0, List := [none, some ()] },
           TabList := TabList_EntityLinked_Set (TabList_Set TabList_initial 1 "a" "b" "c" 0) 1,
           removed := [] } : Game Unit) 1 = Except.ok g2
      ∧ g2.Entities.List.getD 1 none = none :=
  let ⟨g2, h1, h2, _⟩ := Entities_Remove_spec
    ({ Entities := { NamesMode := 0, ShadowsMode := 0, List := [none, some ()] },
       TabList := TabList_EntityLinked_Set (TabList_Set TabList_initial 1 "a" "b" "c" 0) 1,
       removed := [] } : Game Unit) 1 (by decide)
  ⟨g2, h1, h2⟩

/-! ## Theorems about location updates -/

/-- C3: for every entity `e` (whatever its `prev` and `next`, equal or not) and every
`LocationUpdate` whose flags byte is 0, applying the update through `SetLocation` leaves
both `e.prev` and `e.next` exactly as they were; the entity as a whole is unchanged. -/
theorem SetLocation_no_flags {F : Type} [Add F] (adjustment : F) (e : Entity F)
    (update : LocationUpdate F) (hflags : update.flags = 0) :
    (SetLocation adjustment e update).prev = e.prev
    ∧ (SetLocation adjustment e update).next = e.next
    ∧ SetLocation adjustment e update = e := by
  have h : SetLocation adjustment e update = e := by
    unfold SetLocation
    rw [if_pos hflags]
  rw [h]
  exact ⟨rfl, rfl, rfl⟩

theorem SetLocation_no_flags_witness :
    (SetLocation ENTITY_ADJUSTMENT
          { Position := ⟨0, 0, 0⟩, Pitch := 0, Yaw := 0, RotX := 0, RotY := 0, RotZ := 0,
            Velocity := ⟨0, 0, 0⟩,
            prev := ⟨⟨0, 0, 0⟩, 0, 0, 0, 0, 0⟩, next := ⟨⟨1, 2, 3⟩, 0, 90, 0, 0, 0⟩ }
          { pos := ⟨7, 7, 7⟩, pitch := 5, yaw := 5, rotX := 5, rotZ := 5, flags := 0 }).prev
        = (⟨⟨0, 0, 0⟩, 0, 0, 0, 0, 0⟩ : EntityLocation ℚ) :=
  (SetLocation_no_flags ENTITY_ADJUSTMENT _ _ rfl).1

end ClassiCube
